import Mathlib

/-!
Verification of the rkl pod-task runner (src/project/rkl/src/task/task.rs).

The manifest data model, the CRI request builders and the orchestration
driver are embedded shallowly: Rust structs become Lean structures,
`HashMap<String, String>` becomes an association list, the tonic `Status`
becomes a plain structure, and the async `run` method becomes a pure
function over an abstract runtime service that additionally records the
trace of RPC calls it issues.
-/

namespace Rkl

/-- Manifest metadata (struct ObjectMeta). Label and annotation maps are
represented as association lists of key/value pairs. -/
structure ObjectMeta where
  name : String
  namespaceField : String
  labels : List (String × String)
  annotations : List (String × String)
  deriving DecidableEq, Repr

/-- One declared port (struct Port); serde renames the field to
containerPort in the manifest. -/
structure Port where
  container_port : Int
  deriving DecidableEq, Repr

/-- One container entry of the manifest (struct ContainerSpec). -/
structure ContainerSpec where
  name : String
  image : String
  ports : List Port
  deriving DecidableEq, Repr

/-- The pod spec (struct PodSpec): ordered containers plus parsed-but-unused
init containers. -/
structure PodSpec where
  containers : List ContainerSpec
  init_containers : List ContainerSpec
  deriving DecidableEq, Repr

/-- The manifest root (struct PodTask). -/
structure PodTask where
  api_version : String
  kind : String
  metadata : ObjectMeta
  spec : PodSpec
  deriving DecidableEq, Repr

/-! CRI message shapes, modelled with exactly the fields the source sets. -/

/-- CRI namespace mode enum (NamespaceMode): Pod is the pod-shared mode,
Container the join-an-existing-namespace mode. -/
inductive NamespaceMode where
  | pod
  | container
  | node
  | target
  deriving DecidableEq, Repr

/-- CRI protocol enum (Protocol). -/
inductive Protocol where
  | tcp
  | udp
  | sctp
  deriving DecidableEq, Repr

/-- One isolation-namespace entry (struct Namespace). -/
structure CriNamespace where
  type : String
  mode : NamespaceMode
  path : String
  deriving DecidableEq, Repr

structure PodSandboxMetadata where
  name : String
  namespaceField : String
  uid : String
  attempt : Nat
  deriving DecidableEq, Repr

structure PortMapping where
  protocol : Protocol
  container_port : Int
  host_port : Int
  host_ip : String
  deriving DecidableEq, Repr

structure LinuxPodSandboxConfig where
  namespaces : List CriNamespace
  deriving DecidableEq, Repr

structure PodSandboxConfig where
  metadata : Option PodSandboxMetadata
  hostname : String
  log_directory : String
  dns_config : Option Unit
  port_mappings : List PortMapping
  labels : List (String × String)
  annotations : List (String × String)
  linux : Option LinuxPodSandboxConfig
  windows : Option Unit
  deriving DecidableEq, Repr

structure ContainerMetadata where
  name : String
  attempt : Nat
  deriving DecidableEq, Repr

structure ImageSpec where
  image : String
  annotations : List (String × String)
  user_specified_image : String
  runtime_handler : String
  deriving DecidableEq, Repr

structure LinuxContainerConfig where
  namespaces : List CriNamespace
  deriving DecidableEq, Repr

structure ContainerConfig where
  metadata : Option ContainerMetadata
  image : Option ImageSpec
  command : List String
  args : List String
  working_dir : String
  envs : List (String × String)
  mounts : List Unit
  devices : List Unit
  labels : List (String × String)
  annotations : List (String × String)
  log_path : String
  stdin : Bool
  stdin_once : Bool
  tty : Bool
  linux : Option LinuxContainerConfig
  windows : Option Unit
  deriving DecidableEq, Repr

structure RunPodSandboxRequest where
  config : Option PodSandboxConfig
  runtime_handler : String
  deriving DecidableEq, Repr

structure CreateContainerRequest where
  pod_sandbox_id : String
  config : Option ContainerConfig
  sandbox_config : Option PodSandboxConfig
  deriving DecidableEq, Repr

structure StartContainerRequest where
  container_id : String
  deriving DecidableEq, Repr

/-- The tonic RPC error status carried by a failing call. -/
structure Status where
  code : Int
  message : String
  deriving DecidableEq, Repr

/-- TaskRunner::create_pod_sandbox_config: builds the sandbox configuration
from the task alone. -/
def create_pod_sandbox_config (task : PodTask) : PodSandboxConfig :=
  let metadata : PodSandboxMetadata :=
    { name := task.metadata.name
      namespaceField := task.metadata.namespaceField
      uid := "12345"
      attempt := 0 }
  let port_mappings : List PortMapping :=
    task.spec.containers.flatMap fun c =>
      c.ports.map fun p =>
        { protocol := Protocol.tcp
          container_port := p.container_port
          host_port := 0
          host_ip := "" }
  { metadata := some metadata
    hostname := task.metadata.name
    log_directory :=
      "/var/log/pods/" ++ task.metadata.namespaceField ++ "_"
        ++ task.metadata.name ++ "/"
    dns_config := none
    port_mappings := port_mappings
    labels := task.metadata.labels
    annotations := task.metadata.annotations
    linux := some
      { namespaces :=
          [ { type := "network", mode := NamespaceMode.pod, path := "" }
          , { type := "pid", mode := NamespaceMode.pod, path := "" }
          , { type := "ipc", mode := NamespaceMode.pod, path := "" }
          , { type := "mount", mode := NamespaceMode.pod, path := "" } ] }
    windows := none }

/-- TaskRunner::create_container_config: builds one container configuration
from the task, the sandbox identifier and one container spec. -/
def create_container_config (task : PodTask) (pod_sandbox_id : String)
    (container : ContainerSpec) : ContainerConfig :=
  { metadata := some { name := container.name, attempt := 0 }
    image := some
      { image := container.image
        annotations := []
        user_specified_image := container.image
        runtime_handler := "" }
    command := []
    args := []
    working_dir := ""
    envs := []
    mounts := []
    devices := []
    labels := task.metadata.labels
    annotations := task.metadata.annotations
    log_path := container.name ++ "/0.log"
    stdin := false
    stdin_once := false
    tty := false
    linux := some
      { namespaces :=
          [ { type := "network", mode := NamespaceMode.container
            , path := pod_sandbox_id }
          , { type := "pid", mode := NamespaceMode.container
            , path := pod_sandbox_id }
          , { type := "ipc", mode := NamespaceMode.container
            , path := pod_sandbox_id }
          , { type := "mount", mode := NamespaceMode.container
            , path := pod_sandbox_id } ] }
    windows := none }

/-- TaskRunner::build_run_pod_sandbox_request. -/
def build_run_pod_sandbox_request (task : PodTask) : RunPodSandboxRequest :=
  { config := some (create_pod_sandbox_config task)
    runtime_handler := "" }

/-- TaskRunner::build_create_container_request. -/
def build_create_container_request (task : PodTask) (pod_sandbox_id : String)
    (container : ContainerSpec) : CreateContainerRequest :=
  { pod_sandbox_id := pod_sandbox_id
    config := some (create_container_config task pod_sandbox_id container)
    sandbox_config := some (create_pod_sandbox_config task) }

/-- TaskRunner::build_start_container_request. -/
def build_start_container_request (container_id : String) :
    StartContainerRequest :=
  { container_id := container_id }

/-! Concrete manifests used by the scenarios of the spec. -/

/-- The nginx container of the spec scenario. -/
def nginxSpec : ContainerSpec :=
  { name := "nginx", image := "nginx:latest", ports := [{ container_port := 80 }] }

/-- The spec scenario manifest: name web, namespace default, one nginx
container declaring port 80. -/
def webTask : PodTask :=
  { api_version := "v1"
    kind := "Pod"
    metadata :=
      { name := "web", namespaceField := "default"
        labels := [], annotations := [] }
    spec := { containers := [nginxSpec], init_containers := [] } }

/-- Manifest with three containers declaring ports [80], [], [443, 8443]
(the port-flattening scenario of the spec). -/
def portsTask : PodTask :=
  { api_version := "v1"
    kind := "Pod"
    metadata :=
      { name := "p", namespaceField := "ns", labels := [], annotations := [] }
    spec :=
      { containers :=
          [ { name := "a", image := "img-a"
            , ports := [{ container_port := 80 }] }
          , { name := "b", image := "img-b", ports := [] }
          , { name := "c", image := "img-c"
            , ports := [{ container_port := 443 }, { container_port := 8443 }] } ]
        init_containers := [] } }

/-! The orchestration driver (TaskRunner::run). The runtime service trait
is modelled as a record of response functions, and run additionally
returns the ordered trace of RPC requests it issued, so that the ordering
and cardinality claims can be stated over the trace. -/

/-- An RPC issued by the driver, carrying the full request. -/
inductive Event where
  | sandboxCall (req : RunPodSandboxRequest)
  | createCall (req : CreateContainerRequest)
  | startCall (req : StartContainerRequest)
  deriving DecidableEq, Repr

/-- The runtime-service capability consumed by the driver: each RPC either
returns its response or fails with a Status. -/
structure RuntimeService where
  run_pod_sandbox : RunPodSandboxRequest → Except Status String
  create_container : CreateContainerRequest → Except Status String
  start_container : StartContainerRequest → Except Status Unit

/-- The container loop of TaskRunner::run: for each container spec in
order, issue create then start, stopping at the first failure. Returns
the trace of issued RPCs and either the started container ids or the
first error. -/
def run_containers (rt : RuntimeService) (task : PodTask) (sid : String) :
    List ContainerSpec → List Event × Except Status (List String)
  | [] => ([], Except.ok [])
  | c :: cs =>
    let req := build_create_container_request task sid c
    match rt.create_container req with
    | Except.error s => ([Event.createCall req], Except.error s)
    | Except.ok cid =>
      let sreq := build_start_container_request cid
      match rt.start_container sreq with
      | Except.error s =>
          ([Event.createCall req, Event.startCall sreq], Except.error s)
      | Except.ok _ =>
        let rest := run_containers rt task sid cs
        (Event.createCall req :: Event.startCall sreq :: rest.1,
         rest.2.map fun cids => cid :: cids)

/-- TaskRunner::run: issue the sandbox request, then the per-container
create/start pairs, propagating the first error. -/
def run (rt : RuntimeService) (task : PodTask) :
    List Event × Except Status (String × List String) :=
  let preq := build_run_pod_sandbox_request task
  match rt.run_pod_sandbox preq with
  | Except.error s => ([Event.sandboxCall preq], Except.error s)
  | Except.ok sid =>
    let rest := run_containers rt task sid task.spec.containers
    (Event.sandboxCall preq :: rest.1,
     rest.2.map fun cids => (sid, cids))

/-- The container id the runtime hands back for one container spec
(meaningful when the create call succeeds). -/
def createdId (rt : RuntimeService) (task : PodTask) (sid : String)
    (c : ContainerSpec) : String :=
  match rt.create_container (build_create_container_request task sid c) with
  | Except.ok cid => cid
  | Except.error _ => ""

/-- The create/start RPC pair the driver issues for one container spec. -/
def containerPair (rt : RuntimeService) (task : PodTask) (sid : String)
    (c : ContainerSpec) : List Event :=
  [ Event.createCall (build_create_container_request task sid c)
  , Event.startCall (build_start_container_request (createdId rt task sid c)) ]

/-- Both RPCs of one container spec succeed against the given runtime. -/
def okPair (rt : RuntimeService) (task : PodTask) (sid : String)
    (c : ContainerSpec) : Prop :=
  ∃ cid,
    rt.create_container (build_create_container_request task sid c) =
      Except.ok cid ∧
    rt.start_container (build_start_container_request cid) = Except.ok ()

/-- A runtime stub that accepts everything, naming each container id after
the container. -/
def rtOk : RuntimeService :=
  { run_pod_sandbox := fun _ => Except.ok "sbx"
    create_container := fun req =>
      match req.config with
      | some cfg =>
        match cfg.metadata with
        | some m => Except.ok ("id-" ++ m.name)
        | none => Except.ok "id"
      | none => Except.ok "id"
    start_container := fun _ => Except.ok () }

/-- The status a failing stub returns. -/
def st2 : Status := { code := 13, message := "create failed" }

/-- A runtime stub that fails CreateContainer exactly for the container
named c2 and accepts everything else. -/
def rtFailSecond : RuntimeService :=
  { run_pod_sandbox := fun _ => Except.ok "sbx"
    create_container := fun req =>
      match req.config with
      | some cfg =>
        match cfg.metadata with
        | some m =>
          if m.name = "c2" then Except.error st2
          else Except.ok ("id-" ++ m.name)
        | none => Except.ok "id"
      | none => Except.ok "id"
    start_container := fun _ => Except.ok () }

/-- A runtime stub whose sandbox RPC always fails. -/
def rtSbxFail : RuntimeService :=
  { run_pod_sandbox := fun _ => Except.error st2
    create_container := fun _ => Except.ok "id"
    start_container := fun _ => Except.ok () }

/-- Container specs of the three-container failure scenario. -/
def c1Spec : ContainerSpec := { name := "c1", image := "i1", ports := [] }

def c2Spec : ContainerSpec := { name := "c2", image := "i2", ports := [] }

def c3Spec : ContainerSpec := { name := "c3", image := "i3", ports := [] }

/-- The three-container manifest of the failure scenario. -/
def threeTask : PodTask :=
  { api_version := "v1"
    kind := "Pod"
    metadata :=
      { name := "t", namespaceField := "ns", labels := [], annotations := [] }
    spec :=
      { containers := [c1Spec, c2Spec, c3Spec], init_containers := [] } }

/-! The manifest parser (TaskRunner::from_file). The YAML text syntax is
handled by the external serde_yaml collaborator; the embedding models the
structured document it produces as a Value tree, and the serde-derived
Deserialize/Serialize impls of the manifest structs as functions between
Value and PodTask. Field names follow the serde attributes of the source:
apiVersion, kind and containerPort are renamed, every other field keeps
its Rust name (in particular init_containers, which carries no rename
attribute). -/

/-- A structured manifest document: strings, integers, mappings and
sequences. -/
inductive Value where
  | str (s : String)
  | int (n : Int)
  | map (entries : List (String × Value))
  | list (items : List Value)
  deriving Repr

def Value.asStr : Value → Option String
  | Value.str s => some s
  | _ => none

def Value.asInt : Value → Option Int
  | Value.int n => some n
  | _ => none

def Value.asMap : Value → Option (List (String × Value))
  | Value.map es => some es
  | _ => none

def Value.asList : Value → Option (List Value)
  | Value.list xs => some xs
  | _ => none

/-- Field lookup in a mapping (unknown keys are simply never looked at,
matching serde's default of ignoring them). -/
def getField : List (String × Value) → String → Option Value
  | [], _ => none
  | (k, v) :: es, key => if k = key then some v else getField es key

/-- Parse every element of a sequence, failing if any element fails. -/
def mapParse {α : Type} (f : Value → Option α) : List Value → Option (List α)
  | [] => some []
  | v :: vs => do
    let a ← f v
    let rest ← mapParse f vs
    pure (a :: rest)

/-- Deserialize a string-to-string mapping (the labels and annotations
HashMaps). -/
def parseStrEntries : List (String × Value) → Option (List (String × String))
  | [] => some []
  | (k, v) :: es => do
    let s ← v.asStr
    let rest ← parseStrEntries es
    pure ((k, s) :: rest)

def parseStrMap (v : Value) : Option (List (String × String)) := do
  parseStrEntries (← v.asMap)

/-- Deserialize for Port: the single renamed field containerPort. -/
def parsePort (v : Value) : Option Port := do
  let es ← v.asMap
  let pv ← getField es "containerPort"
  let n ← pv.asInt
  pure { container_port := n }

/-- Deserialize for ContainerSpec: required name and image, ports
defaulting to empty. -/
def parseContainerSpec (v : Value) : Option ContainerSpec := do
  let es ← v.asMap
  let name ← (← getField es "name").asStr
  let image ← (← getField es "image").asStr
  let ports ←
    match getField es "ports" with
    | none => some []
    | some pv => do mapParse parsePort (← pv.asList)
  pure { name := name, image := image, ports := ports }

/-- Deserialize for ObjectMeta: required name and namespace, labels and
annotations defaulting to empty. -/
def parseObjectMeta (v : Value) : Option ObjectMeta := do
  let es ← v.asMap
  let name ← (← getField es "name").asStr
  let ns ← (← getField es "namespace").asStr
  let labels ←
    match getField es "labels" with
    | none => some []
    | some lv => parseStrMap lv
  let annos ←
    match getField es "annotations" with
    | none => some []
    | some av => parseStrMap av
  pure { name := name, namespaceField := ns, labels := labels
         annotations := annos }

/-- Deserialize for PodSpec: both sequences default to empty; the init
sequence is keyed init_containers (the Rust field name — the source
carries no serde rename for it). -/
def parsePodSpec (v : Value) : Option PodSpec := do
  let es ← v.asMap
  let containers ←
    match getField es "containers" with
    | none => some []
    | some cv => do mapParse parseContainerSpec (← cv.asList)
  let inits ←
    match getField es "init_containers" with
    | none => some []
    | some iv => do mapParse parseContainerSpec (← iv.asList)
  pure { containers := containers, init_containers := inits }

/-- Deserialize for PodTask: the deserialization performed by
TaskRunner::from_file once the text has been read. -/
def parsePodTask (v : Value) : Option PodTask := do
  let es ← v.asMap
  let av ← (← getField es "apiVersion").asStr
  let kd ← (← getField es "kind").asStr
  let md ← parseObjectMeta (← getField es "metadata")
  let sp ← parsePodSpec (← getField es "spec")
  pure { api_version := av, kind := kd, metadata := md, spec := sp }

/-! The canonical serialization: the serde-derived Serialize impls, which
emit every field under its serde name. -/

def serializeStrMap (m : List (String × String)) : Value :=
  Value.map (m.map fun kv => (kv.1, Value.str kv.2))

def serializePort (p : Port) : Value :=
  Value.map [("containerPort", Value.int p.container_port)]

def serializeContainerSpec (c : ContainerSpec) : Value :=
  Value.map
    [ ("name", Value.str c.name)
    , ("image", Value.str c.image)
    , ("ports", Value.list (c.ports.map serializePort)) ]

def serializeObjectMeta (m : ObjectMeta) : Value :=
  Value.map
    [ ("name", Value.str m.name)
    , ("namespace", Value.str m.namespaceField)
    , ("labels", serializeStrMap m.labels)
    , ("annotations", serializeStrMap m.annotations) ]

def serializePodSpec (s : PodSpec) : Value :=
  Value.map
    [ ("containers", Value.list (s.containers.map serializeContainerSpec))
    , ("init_containers",
       Value.list (s.init_containers.map serializeContainerSpec)) ]

def serializePodTask (t : PodTask) : Value :=
  Value.map
    [ ("apiVersion", Value.str t.api_version)
    , ("kind", Value.str t.kind)
    , ("metadata", serializeObjectMeta t.metadata)
    , ("spec", serializePodSpec t.spec) ]

/-- A manifest document that supplies init containers under the Kubernetes
manifest key initContainers (camel case). -/
def initCamelDoc : Value :=
  Value.map
    [ ("apiVersion", Value.str "v1")
    , ("kind", Value.str "Pod")
    , ("metadata", Value.map
        [ ("name", Value.str "web")
        , ("namespace", Value.str "default") ])
    , ("spec", Value.map
        [ ("containers", Value.list [])
        , ("initContainers", Value.list [serializeContainerSpec c1Spec]) ]) ]

/-- The same document with the key spelled init_containers (the spelling
the source actually deserializes). -/
def initSnakeDoc : Value :=
  Value.map
    [ ("apiVersion", Value.str "v1")
    , ("kind", Value.str "Pod")
    , ("metadata", Value.map
        [ ("name", Value.str "web")
        , ("namespace", Value.str "default") ])
    , ("spec", Value.map
        [ ("containers", Value.list [])
        , ("init_containers", Value.list [serializeContainerSpec c1Spec]) ]) ]

end Rkl

namespace Rkl

/-- C4: the sandbox request's port-mapping sequence is the flattened
concatenation, over containers in manifest order, of each container's
declared ports, each mapped to protocol TCP, the declared container port,
host port 0 and empty host IP; for containers declaring ports [80], [],
[443, 8443] the sequence is exactly [80, 443, 8443]. -/
theorem port_mappings_flatten :
    (∀ task : PodTask,
      (create_pod_sandbox_config task).port_mappings =
        task.spec.containers.flatMap fun c =>
          c.ports.map fun p =>
            { protocol := Protocol.tcp
              container_port := p.container_port
              host_port := 0
              host_ip := "" }) ∧
    (create_pod_sandbox_config portsTask).port_mappings =
      [ { protocol := Protocol.tcp, container_port := 80
        , host_port := 0, host_ip := "" }
      , { protocol := Protocol.tcp, container_port := 443
        , host_port := 0, host_ip := "" }
      , { protocol := Protocol.tcp, container_port := 8443
        , host_port := 0, host_ip := "" } ] := by
  exact ⟨fun task => rfl, rfl⟩

/-- C5: every sandbox configuration holds exactly the four namespace entries
network, pid, ipc, mount (pairwise-distinct types), each in pod-shared mode
with empty path; every container configuration holds the same four types in
join-existing mode with path equal to the sandbox identifier. -/
theorem namespace_entries :
    (∀ task : PodTask,
      (create_pod_sandbox_config task).linux =
        some { namespaces :=
          [ { type := "network", mode := NamespaceMode.pod, path := "" }
          , { type := "pid", mode := NamespaceMode.pod, path := "" }
          , { type := "ipc", mode := NamespaceMode.pod, path := "" }
          , { type := "mount", mode := NamespaceMode.pod, path := "" } ] }) ∧
    (∀ (task : PodTask) (sid : String) (c : ContainerSpec),
      (create_container_config task sid c).linux =
        some { namespaces :=
          [ { type := "network", mode := NamespaceMode.container, path := sid }
          , { type := "pid", mode := NamespaceMode.container, path := sid }
          , { type := "ipc", mode := NamespaceMode.container, path := sid }
          , { type := "mount", mode := NamespaceMode.container, path := sid } ] }) ∧
    (["network", "pid", "ipc", "mount"] : List String).Nodup := by
  exact ⟨fun task => rfl, fun task sid c => rfl, by decide⟩

/-- C6: the sandbox configuration carries hostname equal to the pod name,
metadata uid the constant placeholder 12345 with attempt 0, and log
directory /var/log/pods/namespace_name/; each container configuration
carries log path name/0.log; the web/default/nginx scenario yields
/var/log/pods/default_web/ and nginx/0.log. -/
theorem metadata_and_log_paths :
    (∀ task : PodTask,
      (create_pod_sandbox_config task).hostname = task.metadata.name ∧
      (create_pod_sandbox_config task).metadata =
        some { name := task.metadata.name
               namespaceField := task.metadata.namespaceField
               uid := "12345", attempt := 0 } ∧
      (create_pod_sandbox_config task).log_directory =
        "/var/log/pods/" ++ task.metadata.namespaceField ++ "_"
          ++ task.metadata.name ++ "/") ∧
    (∀ (task : PodTask) (sid : String) (c : ContainerSpec),
      (create_container_config task sid c).log_path = c.name ++ "/0.log") ∧
    (create_pod_sandbox_config webTask).log_directory =
      "/var/log/pods/default_web/" ∧
    (create_container_config webTask "sbx" nginxSpec).log_path =
      "nginx/0.log" := by
  refine ⟨fun task => ⟨rfl, rfl, rfl⟩, fun task sid c => rfl, ?_, ?_⟩ <;> decide

/-- C7: the three request builders are deterministic: equal inputs always
produce identical requests. -/
theorem builders_deterministic
    (t1 t2 : PodTask) (sid1 sid2 : String) (c1 c2 : ContainerSpec)
    (cid1 cid2 : String)
    (ht : t1 = t2) (hs : sid1 = sid2) (hc : c1 = c2) (hi : cid1 = cid2) :
    build_run_pod_sandbox_request t1 = build_run_pod_sandbox_request t2 ∧
    build_create_container_request t1 sid1 c1 =
      build_create_container_request t2 sid2 c2 ∧
    build_start_container_request cid1 = build_start_container_request cid2 := by
  subst ht hs hc hi
  exact ⟨rfl, rfl, rfl⟩

/-- Witness for C7 at the concrete web manifest. -/
theorem builders_deterministic_witness :
    build_run_pod_sandbox_request webTask = build_run_pod_sandbox_request webTask ∧
    build_create_container_request webTask "sbx" nginxSpec =
      build_create_container_request webTask "sbx" nginxSpec ∧
    build_start_container_request "cid" = build_start_container_request "cid" :=
  builders_deterministic webTask webTask "sbx" "sbx" nginxSpec nginxSpec
    "cid" "cid" rfl rfl rfl rfl

/-- Helper: running the container loop on a list whose prefix succeeds
fully appends the prefix's create/start pairs before whatever the suffix
produces, and prepends the prefix's container ids to a successful
suffix result. -/
theorem run_containers_append (rt : RuntimeService) (task : PodTask)
    (sid : String) :
    ∀ cs1 : List ContainerSpec, (∀ c ∈ cs1, okPair rt task sid c) →
    ∀ cs2 : List ContainerSpec,
      run_containers rt task sid (cs1 ++ cs2) =
        (cs1.flatMap (containerPair rt task sid)
           ++ (run_containers rt task sid cs2).1,
         Except.map (fun cids => cs1.map (createdId rt task sid) ++ cids)
           (run_containers rt task sid cs2).2) := by
  intro cs1
  induction cs1 with
  | nil =>
    intro _ cs2
    rcases hrc : run_containers rt task sid cs2 with ⟨t2, r2⟩
    cases r2 <;> simp [hrc, Except.map]
  | cons c cs1 ih =>
    intro h cs2
    obtain ⟨cid, hc, hs⟩ := h c (List.mem_cons_self c cs1)
    have hid : createdId rt task sid c = cid := by
      simp [createdId, hc]
    have ih2 := ih (fun c1 hmem => h c1 (List.mem_cons_of_mem c hmem)) cs2
    rcases hrc : run_containers rt task sid cs2 with ⟨t2, r2⟩
    rw [hrc] at ih2
    cases r2 <;>
      simp [run_containers, hc, hs, ih2, containerPair, hid, Except.map]

/-- Helper: in any container-loop trace, a start call is immediately
preceded by the create call whose successful response produced the started
container id. -/
theorem run_containers_start_after_create (rt : RuntimeService)
    (task : PodTask) (sid : String) :
    ∀ (cs : List ContainerSpec) (l1 : List Event)
      (sreq : StartContainerRequest) (l2 : List Event),
      (run_containers rt task sid cs).1 = l1 ++ Event.startCall sreq :: l2 →
      ∃ l0 req, l1 = l0 ++ [Event.createCall req] ∧
        rt.create_container req = Except.ok sreq.container_id := by
  intro cs
  induction cs with
  | nil =>
    intro l1 sreq l2 h
    simp [run_containers] at h
  | cons c cs ih =>
    intro l1 sreq l2 h
    cases hc : rt.create_container (build_create_container_request task sid c) with
    | error s =>
      simp [run_containers, hc] at h
      rcases l1 with _ | ⟨e1, l1⟩ <;> simp at h
    | ok cid =>
      cases hs : rt.start_container (build_start_container_request cid) with
      | error s =>
        simp [run_containers, hc, hs] at h
        rcases l1 with _ | ⟨e1, (_ | ⟨e2, l1⟩)⟩
        · simp at h
        · simp at h
          refine ⟨[], build_create_container_request task sid c, by simp [h.1], ?_⟩
          rw [← h.2.1]
          exact hc
        · simp at h
      | ok u =>
        simp [run_containers, hc, hs] at h
        rcases l1 with _ | ⟨e1, (_ | ⟨e2, l1⟩)⟩
        · simp at h
        · simp at h
          refine ⟨[], build_create_container_request task sid c, by simp [h.1], ?_⟩
          rw [← h.2.1]
          exact hc
        · simp at h
          obtain ⟨l0, req, hl, hok⟩ := ih l1 sreq l2 h.2.2
          exact ⟨Event.createCall (build_create_container_request task sid c) ::
                   Event.startCall (build_start_container_request cid) :: l0,
                 req, by simp [h.1, h.2.1, hl], hok⟩

/-- C1: when the sandbox RPC and every per-container create/start RPC
succeed, run returns the sandbox id paired with the container ids in
manifest order, issuing one create/start pair per container spec after the
single sandbox call; an empty containers list yields exactly the sandbox
call and an empty id sequence. -/
theorem run_all_success (rt : RuntimeService) (task : PodTask) (sid : String)
    (h1 : rt.run_pod_sandbox (build_run_pod_sandbox_request task) =
      Except.ok sid)
    (h2 : ∀ c ∈ task.spec.containers, okPair rt task sid c) :
    run rt task =
      (Event.sandboxCall (build_run_pod_sandbox_request task) ::
         task.spec.containers.flatMap (containerPair rt task sid),
       Except.ok (sid, task.spec.containers.map (createdId rt task sid))) := by
  have hall := run_containers_append rt task sid task.spec.containers h2 []
  simp [run_containers, Except.map] at hall
  simp [run, h1, hall, Except.map]

/-- Witness for C1: the web manifest against the all-accepting stub. -/
theorem run_all_success_witness :
    run rtOk webTask =
      (Event.sandboxCall (build_run_pod_sandbox_request webTask) ::
         webTask.spec.containers.flatMap (containerPair rtOk webTask "sbx"),
       Except.ok ("sbx",
         webTask.spec.containers.map (createdId rtOk webTask "sbx"))) :=
  run_all_success rtOk webTask "sbx" rfl (by
    intro c hc
    simp [webTask] at hc
    subst hc
    exact ⟨"id-" ++ "nginx", rfl, rfl⟩)

/-- C3: the first RPC of every run is the sandbox call; if the sandbox RPC
fails, no container RPC is issued at all; and every start call in the
trace immediately follows the create call whose successful response
produced the started container id. -/
theorem rpc_ordering (rt : RuntimeService) (task : PodTask) :
    (∃ rest, (run rt task).1 =
       Event.sandboxCall (build_run_pod_sandbox_request task) :: rest) ∧
    (∀ s, rt.run_pod_sandbox (build_run_pod_sandbox_request task) =
        Except.error s →
      (run rt task).1 =
        [Event.sandboxCall (build_run_pod_sandbox_request task)]) ∧
    (∀ (l1 : List Event) (sreq : StartContainerRequest) (l2 : List Event),
      (run rt task).1 = l1 ++ Event.startCall sreq :: l2 →
      ∃ l0 req, l1 = l0 ++ [Event.createCall req] ∧
        rt.create_container req = Except.ok sreq.container_id) := by
  refine ⟨?_, ?_, ?_⟩
  · cases hp : rt.run_pod_sandbox (build_run_pod_sandbox_request task) with
    | error s => exact ⟨[], by simp [run, hp]⟩
    | ok sid =>
      exact ⟨(run_containers rt task sid task.spec.containers).1,
             by simp [run, hp]⟩
  · intro s hp
    simp [run, hp]
  · intro l1 sreq l2 h
    cases hp : rt.run_pod_sandbox (build_run_pod_sandbox_request task) with
    | error s =>
      simp [run, hp] at h
      rcases l1 with _ | ⟨e1, l1⟩ <;> simp at h
    | ok sid =>
      simp [run, hp] at h
      rcases l1 with _ | ⟨e1, l1⟩
      · simp at h
      · simp at h
        obtain ⟨l0, req, hl, hok⟩ :=
          run_containers_start_after_create rt task sid
            task.spec.containers l1 sreq l2 h.2
        exact ⟨Event.sandboxCall (build_run_pod_sandbox_request task) :: l0,
               req, by simp [h.1, hl], hok⟩

/-- Witness for C3: against the stub whose sandbox RPC fails, the trace is
the single sandbox call. -/
theorem rpc_ordering_witness :
    (run rtSbxFail webTask).1 =
      [Event.sandboxCall (build_run_pod_sandbox_request webTask)] :=
  (rpc_ordering rtSbxFail webTask).2.1 st2 rfl

/-- C2 counterexample: with the stub failing CreateContainer for the second
of three containers, run returns the bare error status — a result value
that contains neither the sandbox id nor the first container id — while
the trace stops at the failing create call (the third container is never
attempted). -/
theorem run_failure_result_counterexample :
    run rtFailSecond threeTask =
      ([ Event.sandboxCall (build_run_pod_sandbox_request threeTask)
       , Event.createCall (build_create_container_request threeTask "sbx" c1Spec)
       , Event.startCall (build_start_container_request "id-c1")
       , Event.createCall (build_create_container_request threeTask "sbx" c2Spec) ],
       Except.error st2) := by
  rfl

/-- C2 amended: on the first failing RPC the run's result is that failure
alone — the identifiers already obtained are not part of the returned
value — and no RPC is issued for any container after the failing one. -/
theorem run_failure_error_only (rt : RuntimeService) (task : PodTask) :
    (∀ s, rt.run_pod_sandbox (build_run_pod_sandbox_request task) =
        Except.error s →
      run rt task =
        ([Event.sandboxCall (build_run_pod_sandbox_request task)],
         Except.error s)) ∧
    (∀ (sid : String) (cs1 : List ContainerSpec) (c : ContainerSpec)
       (cs2 : List ContainerSpec) (s : Status),
      task.spec.containers = cs1 ++ c :: cs2 →
      rt.run_pod_sandbox (build_run_pod_sandbox_request task) =
        Except.ok sid →
      (∀ c1 ∈ cs1, okPair rt task sid c1) →
      rt.create_container (build_create_container_request task sid c) =
        Except.error s →
      run rt task =
        (Event.sandboxCall (build_run_pod_sandbox_request task) ::
           cs1.flatMap (containerPair rt task sid)
           ++ [Event.createCall (build_create_container_request task sid c)],
         Except.error s)) ∧
    (∀ (sid : String) (cs1 : List ContainerSpec) (c : ContainerSpec)
       (cs2 : List ContainerSpec) (s : Status) (cid : String),
      task.spec.containers = cs1 ++ c :: cs2 →
      rt.run_pod_sandbox (build_run_pod_sandbox_request task) =
        Except.ok sid →
      (∀ c1 ∈ cs1, okPair rt task sid c1) →
      rt.create_container (build_create_container_request task sid c) =
        Except.ok cid →
      rt.start_container (build_start_container_request cid) =
        Except.error s →
      run rt task =
        (Event.sandboxCall (build_run_pod_sandbox_request task) ::
           cs1.flatMap (containerPair rt task sid)
           ++ [ Event.createCall (build_create_container_request task sid c)
              , Event.startCall (build_start_container_request cid) ],
         Except.error s)) := by
  refine ⟨?_, ?_, ?_⟩
  · intro s hp
    simp [run, hp]
  · intro sid cs1 c cs2 s hsplit hp hpre hc
    have happ := run_containers_append rt task sid cs1 hpre (c :: cs2)
    rw [← hsplit] at happ
    simp [run_containers, hc, Except.map] at happ
    simp [run, hp, happ, Except.map]
  · intro sid cs1 c cs2 s cid hsplit hp hpre hc hs
    have happ := run_containers_append rt task sid cs1 hpre (c :: cs2)
    rw [← hsplit] at happ
    simp [run_containers, hc, hs, Except.map] at happ
    simp [run, hp, happ, Except.map]

/-- Witness for the amended C2 at the three-container failure scenario. -/
theorem run_failure_error_only_witness :
    run rtFailSecond threeTask =
      (Event.sandboxCall (build_run_pod_sandbox_request threeTask) ::
         [c1Spec].flatMap (containerPair rtFailSecond threeTask "sbx")
         ++ [Event.createCall
              (build_create_container_request threeTask "sbx" c2Spec)],
       Except.error st2) :=
  (run_failure_error_only rtFailSecond threeTask).2.1 "sbx" [c1Spec] c2Spec
    [c3Spec] st2 rfl rfl
    (by
      intro c1 h
      simp at h
      subst h
      exact ⟨"id-" ++ "c1", rfl, rfl⟩)
    rfl

/-- C10: the sandbox_config embedded in every create-container request
equals the config of the run-pod-sandbox request built from the same task:
the sandbox configuration is rebuilt identically for every container. -/
theorem sandbox_config_rebuilt :
    ∀ (task : PodTask) (sid : String) (c : ContainerSpec),
      (build_create_container_request task sid c).sandbox_config =
        (build_run_pod_sandbox_request task).config :=
  fun _ _ _ => rfl

/-- Helper: string maps deserialize back to themselves. -/
theorem parseStrEntries_roundtrip (m : List (String × String)) :
    parseStrEntries (m.map fun kv => (kv.1, Value.str kv.2)) = some m := by
  induction m with
  | nil => rfl
  | cons kv m ih =>
    simp [parseStrEntries, Value.asStr, ih]

/-- Helper: ports deserialize back to themselves. -/
theorem parsePort_roundtrip (p : Port) :
    parsePort (serializePort p) = some p := by
  simp [parsePort, serializePort, getField, Value.asMap, Value.asInt]

/-- Helper: container specs deserialize back to themselves. -/
theorem parseContainerSpec_roundtrip (c : ContainerSpec) :
    parseContainerSpec (serializeContainerSpec c) = some c := by
  have hports : ∀ ps : List Port,
      mapParse parsePort (ps.map serializePort) = some ps := by
    intro ps
    induction ps with
    | nil => rfl
    | cons p ps ih => simp [mapParse, parsePort_roundtrip, ih]
  simp [parseContainerSpec, serializeContainerSpec, getField,
    Value.asMap, Value.asStr, Value.asList, hports]

/-- Helper: lists of container specs deserialize back to themselves. -/
theorem parseContainerList_roundtrip (cs : List ContainerSpec) :
    mapParse parseContainerSpec (cs.map serializeContainerSpec) = some cs := by
  induction cs with
  | nil => rfl
  | cons c cs ih => simp [mapParse, parseContainerSpec_roundtrip, ih]

/-- Helper: object metadata deserializes back to itself. -/
theorem parseObjectMeta_roundtrip (m : ObjectMeta) :
    parseObjectMeta (serializeObjectMeta m) = some m := by
  obtain ⟨n, ns, ls, ans⟩ := m
  simp [parseObjectMeta, serializeObjectMeta, serializeStrMap,
    parseStrMap, getField, Value.asMap, Value.asStr,
    parseStrEntries_roundtrip]

/-- Helper: the pod spec deserializes back to itself. -/
theorem parsePodSpec_roundtrip (s : PodSpec) :
    parsePodSpec (serializePodSpec s) = some s := by
  obtain ⟨cs, ics⟩ := s
  simp [parsePodSpec, serializePodSpec, getField, Value.asMap,
    Value.asList, parseContainerList_roundtrip]

/-- C8: parsing is a left inverse of the canonical serialization — the
document serialized from any PodTask parses back to an equal PodTask. -/
theorem parse_left_inverse_of_serialize (t : PodTask) :
    parsePodTask (serializePodTask t) = some t := by
  obtain ⟨av, kd, md, sp⟩ := t
  simp [parsePodTask, serializePodTask, getField, Value.asMap,
    Value.asStr, parseObjectMeta_roundtrip, parsePodSpec_roundtrip]

/-- C9: the manifest key for init containers. The source deserializes the
init sequence under the Rust field name init_containers (no serde rename),
so a document using the Kubernetes manifest key initContainers parses with
an empty init-container sequence, while the snake-case spelling populates
it; the driver ignores the init-container sequence entirely. -/
theorem init_container_key_ignored :
    parsePodTask initCamelDoc =
      some { api_version := "v1", kind := "Pod"
             metadata := { name := "web", namespaceField := "default"
                           labels := [], annotations := [] }
             spec := { containers := [], init_containers := [] } } ∧
    parsePodTask initSnakeDoc =
      some { api_version := "v1", kind := "Pod"
             metadata := { name := "web", namespaceField := "default"
                           labels := [], annotations := [] }
             spec := { containers := [], init_containers := [c1Spec] } } ∧
    (∀ (rt : RuntimeService) (t : PodTask) (ics : List ContainerSpec),
      run rt { t with spec := { t.spec with init_containers := ics } } =
        run rt t) := by
  refine ⟨by decide, by decide, ?_⟩
  intro rt t ics
  have hb : ∀ (sid : String) (c : ContainerSpec),
      build_create_container_request
          { t with spec := { t.spec with init_containers := ics } } sid c =
        build_create_container_request t sid c := fun _ _ => rfl
  have hcs : ∀ (sid : String) (cs : List ContainerSpec),
      run_containers rt
          { t with spec := { t.spec with init_containers := ics } } sid cs =
        run_containers rt t sid cs := by
    intro sid cs
    induction cs with
    | nil => rfl
    | cons c cs ih =>
      simp only [run_containers, hb sid c, ih]
  have hp : build_run_pod_sandbox_request
        { t with spec := { t.spec with init_containers := ics } } =
      build_run_pod_sandbox_request t := rfl
  have hcont : PodSpec.containers
      (PodTask.spec { t with spec := { t.spec with init_containers := ics } }) =
      t.spec.containers := rfl
  simp only [run, hp, hcs, hcont]

end Rkl
